import Mathlib

/-!
Shallow embedding of the concurrency-coordination and intent-dispatch core of
the AI-agent repository (`ai_agent.py`, `modules/llm_manager.py`,
`modules/hotkey_manager.py`, `modules/telegram_bot.py`,
`modules/speech_recognition.py`, `config.py`).

Python strings are modelled as Lean `String`; Python substring containment
(`needle in hay`) as `pyIn`; `str.lower()` as `pyLower` (ASCII, matching
`Char.toLower`); `re.search` for the pattern shapes used by the source
(`literal(.+)` and `literal(.+)literal`) as `searchCap`, with `(.+)` greedy
and `.` matching every character except a newline.  Raised exceptions are
modelled as `Except.error`; collaborators (file search, email service,
conversational model, Whisper subprocess, chat transport) are oracle
parameters.  Temporary files on disk are modelled as an explicit ledger
(`List String`) threaded through the session functions.
-/

namespace AiAgent

/-! ### Python string primitives -/

/-- Python `str.lower()` restricted to ASCII (the source only compares ASCII
keywords); maps each character through `Char.toLower`. -/
def pyLower (s : String) : String := ⟨s.data.map Char.toLower⟩

/-- Substring containment on character lists: `containsSub needle hay` is
Python `needle in hay`. -/
def containsSub (needle : List Char) : List Char → Bool
  | [] => needle.isEmpty
  | c :: t => needle.isPrefixOf (c :: t) || containsSub needle t

/-- Python `needle in hay` on strings. -/
def pyIn (needle hay : String) : Bool := containsSub needle.data hay.data

/-- Greedy capture for `(.+)post` starting at `rest`: try capture lengths from
`i` down to `1`, returning the longest capture followed immediately by the
literal `post`.  The caller passes the length of the maximal newline-free run
of `rest`, so every candidate capture is nonempty and newline-free, exactly
the strings `(.+)` can match. -/
def greedyFrom (post rest : List Char) : Nat → Option (List Char)
  | 0 => none
  | i + 1 =>
    if post.isPrefixOf (rest.drop (i + 1)) then some (rest.take (i + 1))
    else greedyFrom post rest i

/-- Try to match `pre(.+)post` at the very start of `s`; returns the capture
group on success. -/
def matchCapAt (pre post s : List Char) : Option (List Char) :=
  if pre.isPrefixOf s then
    let rest := s.drop pre.length
    greedyFrom post rest (rest.takeWhile (fun c => c != '\n')).length
  else none

/-- Python `re.search` for a pattern `pre(.+)post` (`pre`, `post` literal):
scan start positions left to right, return the first position's greedy
capture. -/
def searchCap (pre post : List Char) : List Char → Option (List Char)
  | [] => matchCapAt pre post []
  | c :: t =>
    match matchCapAt pre post (c :: t) with
    | some g => some g
    | none => searchCap pre post t

/-! ### IntentRouter (`AIAgent._parse_and_execute` and the `_handle_*`
methods of `ai_agent.py`) -/

/-- Keyword categories of `_parse_and_execute`, plus the LLM fallback. -/
inductive Category
  | fileSearch
  | email
  | system
  | chat
deriving DecidableEq

/-- `['search', 'find', 'look for']` from `_parse_and_execute`. -/
def fileKeywords : List String := ["search", "find", "look for"]

/-- `['email', 'mail', 'gmail']` from `_parse_and_execute`. -/
def emailKeywords : List String := ["email", "mail", "gmail"]

/-- `['mode', 'status', 'help']` from `_parse_and_execute`. -/
def systemKeywords : List String := ["mode", "status", "help"]

/-- `any(keyword in message_lower for keyword in kws)`. -/
def hasAnyKeyword (ml : String) (kws : List String) : Bool :=
  kws.any (fun k => pyIn k ml)

/-- The keyword cascade of `_parse_and_execute`: file search, then email,
then system, else the LLM (chat) fallback. -/
def classify (message : String) : Category :=
  let ml := pyLower message
  if hasAnyKeyword ml fileKeywords then .fileSearch
  else if hasAnyKeyword ml emailKeywords then .email
  else if hasAnyKeyword ml systemKeywords then .system
  else .chat

/-- The `search_patterns` list of `_handle_file_search`, each pattern
`pre(.+)post` given as `(pre, post)`, in source order. -/
def searchPatterns : List (String × String) :=
  [("search for ", ""), ("find ", ""), ("look for ", ""),
   ("find all ", " files"), ("search ", "")]

/-- The `for pattern in search_patterns` loop: first pattern whose
`re.search` matches wins. -/
def firstMatch (ml : String) : List (String × String) → Option String
  | [] => none
  | (pre, post) :: ps =>
    match searchCap pre.data post.data ml.data with
    | some g => some (String.mk g)
    | none => firstMatch ml ps

/-- Query extraction of `_handle_file_search`: each pattern is matched
against `message.lower()`. -/
def extractQuery (message : String) : Option String :=
  firstMatch (pyLower message) searchPatterns

/-- The clarification reply of `_handle_file_search` when no pattern
captures. -/
def clarificationReply : String :=
  "Please specify what you want to search for. For example: 'search for documents'"

/-- `AIAgent._handle_file_search`, with the file-search collaborator and its
formatter as oracles; a collaborator exception is `Except.error` and is
converted by the handler's `except` clause. -/
def handleFileSearch (searchFiles : String → Except String (List String))
    (fmt : List String → String) (message : String) : String :=
  match extractQuery message with
  | none => clarificationReply
  | some query =>
    match searchFiles query with
    | .error e => "Error searching files: " ++ e
    | .ok results =>
      if results.isEmpty then "No files found matching '" ++ query ++ "'"
      else "Found " ++ toString results.length ++ " files:\n\n" ++ fmt results

/-- The fallback reply of `_handle_email_commands`. -/
def emailHelpReply : String :=
  "Email commands: 'check emails', 'search email [query]', 'send email'"

/-- `AIAgent._handle_email_commands`, with the email collaborator as
oracles. -/
def handleEmailCommands (recent : Nat → Except String (List String))
    (searchEmails : String → Nat → Except String (List String))
    (fmt : List String → String) (message : String) : String :=
  let ml := pyLower message
  if hasAnyKeyword ml ["check email", "read email", "show email", "check mail"] then
    match recent 5 with
    | .error e => "Error processing email command: " ++ e
    | .ok emails =>
      if emails.isEmpty then "No recent emails found."
      else "Recent emails:\n\n" ++ fmt emails
  else if pyIn "send email" ml || pyIn "compose email" ml then
    "Email composition not yet implemented. Please use the web interface for now."
  else if pyIn "search email" ml then
    match searchCap "search email ".data [] ml.data with
    | some g =>
      match searchEmails (String.mk g) 5 with
      | .error e => "Error processing email command: " ++ e
      | .ok emails =>
        if emails.isEmpty then "No emails found matching '" ++ String.mk g ++ "'"
        else "Email search results for '" ++ String.mk g ++ "':\n\n" ++ fmt emails
    | none => "Please specify what to search for in emails."
  else emailHelpReply

/-- `AIAgent._handle_system_commands`; returns the optional reply and the
(possibly updated) LLM mode, since `set_mode("online"/"offline")` always
succeeds. -/
def handleSystemCommands (mode : String) (statusReport helpMsg : String)
    (message : String) : Option String × String :=
  let ml := pyLower message
  if pyIn "status" ml then (some statusReport, mode)
  else if pyIn "mode" ml then
    if pyIn "online" ml then (some "Switched to online mode (OpenAI)", "online")
    else if pyIn "offline" ml then (some "Switched to offline mode (Ollama)", "offline")
    else (some ("Current mode: " ++ mode ++ ". Use 'switch to online/offline mode'"), mode)
  else if pyIn "help" ml then (some helpMsg, mode)
  else (none, mode)

/-- Collaborator oracles consumed by the dispatch layer. -/
structure Collaborators where
  searchFiles : String → Except String (List String)
  formatResults : List String → String
  recentEmails : Nat → Except String (List String)
  searchEmails : String → Nat → Except String (List String)
  formatEmails : List String → String
  llmResponse : String → String → String
  statusReport : String
  helpMessage : String

/-- `AIAgent._parse_and_execute`: keyword dispatch; returns the optional
reply and the updated mode. -/
def parseAndExecute (c : Collaborators) (mode : String) (message : String) :
    Option String × String :=
  let ml := pyLower message
  if hasAnyKeyword ml fileKeywords then
    (some (handleFileSearch c.searchFiles c.formatResults message), mode)
  else if hasAnyKeyword ml emailKeywords then
    (some (handleEmailCommands c.recentEmails c.searchEmails c.formatEmails message), mode)
  else if hasAnyKeyword ml systemKeywords then
    handleSystemCommands mode c.statusReport c.helpMessage message
  else (none, mode)

/-- The fixed system preamble passed to the conversational model by
`process_text_message`. -/
def chatPreamble : String :=
  "You are a helpful AI assistant. Provide concise and helpful responses."

/-- `AIAgent.process_text_message`: dispatch, then the LLM fallback when the
dispatch produced `None` (or an empty string, Python falsiness). -/
def processTextMessage (c : Collaborators) (mode : String) (message : String) :
    String × String :=
  let pr := parseAndExecute c mode message
  match pr.1 with
  | none => (c.llmResponse message chatPreamble, pr.2)
  | some s => if s = "" then (c.llmResponse message chatPreamble, pr.2) else (s, pr.2)

/-- A concrete collaborator bundle (file search and email always return zero
results) used to instantiate universally quantified theorems. -/
def sampleCollaborators : Collaborators where
  searchFiles := fun _ => .ok []
  formatResults := fun _ => ""
  recentEmails := fun _ => .ok []
  searchEmails := fun _ _ => .ok []
  formatEmails := fun _ => ""
  llmResponse := fun p ctx => "LLM[" ++ ctx ++ "|" ++ p ++ "]"
  statusReport := "status-report"
  helpMessage := "help-message"

/-! ### ModeState (`LLMManager.set_mode` / `get_response`, `Config`) -/

/-- The enumerated mode set accepted by `LLMManager.set_mode`. -/
def validModes : List String := ["online", "offline", "huggingface"]

/-- The `ValueError` message raised by `set_mode` on an invalid candidate. -/
def modeErrorMsg : String := "Mode must be 'online', 'offline', or 'huggingface'"

/-- `LLMManager.set_mode`: the raised `ValueError` is `Except.error`; returns
the outcome together with the resulting `current_mode` (unchanged on
rejection, since the `raise` precedes the assignment). -/
def setMode (mode : String) (current : String) : Except String Unit × String :=
  if validModes.contains mode then (.ok (), mode) else (.error modeErrorMsg, current)

/-- `Config.DEFAULT_MODE` from `config.py`. -/
def DEFAULT_MODE : String := "gemini"

/-- The three response back ends of `LLMManager.get_response`. -/
inductive Backend
  | openai
  | huggingface
  | ollama
deriving DecidableEq

/-- The dispatch of `LLMManager.get_response` on `current_mode`: `"online"`
to OpenAI, `"huggingface"` to Hugging Face, everything else to Ollama. -/
def getResponseBackend (mode : String) : Backend :=
  if mode = "online" then .openai
  else if mode = "huggingface" then .huggingface
  else .ollama

/-! ### KeyListener (`HotkeyManager` of `modules/hotkey_manager.py`) -/

/-- `Config.HOTKEY_COMBINATION`. -/
def hotkeyCombination : List String := ["ctrl", "alt", "a"]

/-- State of the hotkey manager plus the number of in-flight activation
threads (`_trigger_activation` starts one daemon thread per firing;
`running` counts threads started and not yet finished). -/
structure HotkeyState where
  pressedKeys : List String
  isActive : Bool
  running : Nat
deriving DecidableEq

/-- Key events observed by the listener, plus completion of an activation
thread. -/
inductive HotkeyEvent
  | press (k : String)
  | release (k : String)
  | finish

/-- Python `set.add`: insert if absent (the pressed-key list is kept
duplicate-free). -/
def insertKey (k : String) (l : List String) : List String :=
  if l.contains k then l else k :: l

/-- Python set equality `self.pressed_keys == self.hotkey_combination`. -/
def sameSet (a b : List String) : Bool :=
  a.all (fun x => b.contains x) && b.all (fun x => a.contains x)

/-- One step of `HotkeyManager._on_press` / `_on_release`, plus thread
completion.  On press, when the held set equals the chord and `is_active` is
false, `is_active` is set and `_trigger_activation` starts a new activation
thread — there is no check of `running`. -/
def hotkeyStep (combo : List String) (s : HotkeyState) : HotkeyEvent → HotkeyState
  | .press k =>
    let pressed := insertKey k s.pressedKeys
    if sameSet pressed combo && !s.isActive then
      { pressedKeys := pressed, isActive := true, running := s.running + 1 }
    else
      { s with pressedKeys := pressed }
  | .release k =>
    if s.pressedKeys.contains k then
      { pressedKeys := s.pressedKeys.erase k, isActive := false, running := s.running }
    else s
  | .finish => { s with running := s.running - 1 }

/-- Initial state of `HotkeyManager`. -/
def hotkeyInit : HotkeyState := ⟨[], false, 0⟩

/-- Run a trace of events. -/
def hotkeyRun (combo : List String) (s : HotkeyState) (es : List HotkeyEvent) :
    HotkeyState :=
  es.foldl (hotkeyStep combo) s

/-- Chord pressed, one chord key released and re-pressed while the first
activation thread is still running. -/
def overlapTrace : List HotkeyEvent :=
  [.press "ctrl", .press "alt", .press "a", .release "a", .press "a"]

/-! ### ChatFrontend (`TelegramBot` of `modules/telegram_bot.py`) -/

/-- The fixed reply of `_handle_text` / `_handle_voice` to an unauthorized
sender. -/
def unauthorizedReply : String := "❌ Unauthorized access"

/-- `TelegramBot._handle_text`: the guard
`if self.config.TELEGRAM_CHAT_ID and str(user_id) != self.config.TELEGRAM_CHAT_ID`
(an unset or empty configured chat id is falsy); `process` is the whole
downstream pipeline (router and collaborators). -/
def handleText (chatIdCfg : Option String) (userId : String)
    (process : String → String) (message : String) : String :=
  match chatIdCfg with
  | some cid => if cid != "" && userId != cid then unauthorizedReply else process message
  | none => process message

/-- `TelegramBot._handle_voice`: same authorization guard; `pipeline` is the
whole downstream voice pipeline. -/
def handleVoice (chatIdCfg : Option String) (userId : String)
    (pipeline : Unit → String) : String :=
  match chatIdCfg with
  | some cid => if cid != "" && userId != cid then unauthorizedReply else pipeline ()
  | none => pipeline ()

/-- `HotkeyManager` as seen by `stop()`: the optional listener handle and a
count of how many times the underlying listener was released. -/
structure ListenerMgr where
  listener : Option Nat
  releases : Nat
deriving DecidableEq

/-- `HotkeyManager.stop`: releases the listener and clears the handle, so a
second call finds `None` and does nothing. -/
def hotkeyStop (m : ListenerMgr) : ListenerMgr :=
  match m.listener with
  | some _ => { listener := none, releases := m.releases + 1 }
  | none => m

/-- `TelegramBot` as seen by `stop()`: the optional application handle and a
count of how many times `application.stop()` was invoked. -/
structure BotMgr where
  application : Option Nat
  stops : Nat
deriving DecidableEq

/-- `TelegramBot.stop`: invokes `application.stop()` but does **not** clear
`self.application`. -/
def telegramStop (m : BotMgr) : BotMgr :=
  match m.application with
  | some _ => { application := m.application, stops := m.stops + 1 }
  | none => m

/-! ### Voice-capture sessions (`modules/speech_recognition.py`,
`TelegramBot._handle_voice`).  Temporary files on disk are an explicit
ledger. -/

/-- Outcome of the Whisper subprocess run inside `transcribe_audio_file`:
completion with a return code and an optionally written `.txt` output,
`subprocess.TimeoutExpired`, or any other raised exception. -/
inductive WhisperOutcome
  | completed (returncode : Nat) (txtWritten : Bool) (content : String)
  | timedOut
  | raised (e : String)

/-- The timeout reply of `transcribe_audio_file`. -/
def timeoutReply : String := "Transcription timed out"

/-- `SpeechRecognition.transcribe_audio_file`: converts every subprocess
failure into a reply string; reads and removes the `.txt` output when
present.  Returns the reply and the updated file ledger. -/
def transcribeAudioFile (fs : List String) (txtFile : String)
    (w : WhisperOutcome) : String × List String :=
  match w with
  | .timedOut => (timeoutReply, fs)
  | .raised e => ("Error transcribing audio: " ++ e, fs)
  | .completed rc written content =>
    if rc != 0 then ("Error transcribing audio", fs)
    else if written then (content.trim, (txtFile :: fs).erase txtFile)
    else ("No transcription output found", fs)

/-- `SpeechRecognition.record_and_transcribe`: records (may raise), creates
the temporary WAV, saves (may raise), transcribes, unlinks the WAV.  The
`except` clause returns the error string without any cleanup. -/
def recordAndTranscribe (fs : List String) (tmpWav txtFile : String)
    (record saveAudio : Except String Unit) (w : WhisperOutcome) :
    String × List String :=
  match record with
  | .error e => ("Error recording and transcribing: " ++ e, fs)
  | .ok _ =>
    let fs1 := tmpWav :: fs
    match saveAudio with
    | .error e => ("Error recording and transcribing: " ++ e, fs1)
    | .ok _ =>
      let r := transcribeAudioFile fs1 txtFile w
      (r.1, r.2.erase tmpWav)

/-- `SpeechRecognition.transcribe_voice_message`: loads the voice file (may
raise, before the temporary WAV exists), creates the temporary WAV, exports
(may raise), transcribes, unlinks the WAV.  The `except` clause returns the
error string without any cleanup. -/
def transcribeVoiceMessage (fs : List String) (tmpWav txtFile : String)
    (load exportWav : Except String Unit) (w : WhisperOutcome) :
    String × List String :=
  match load with
  | .error e => ("Error transcribing voice message: " ++ e, fs)
  | .ok _ =>
    let fs1 := tmpWav :: fs
    match exportWav with
    | .error e => ("Error transcribing voice message: " ++ e, fs1)
    | .ok _ =>
      let r := transcribeAudioFile fs1 txtFile w
      (r.1, r.2.erase tmpWav)

/-- File-ledger effect of `TelegramBot._handle_voice` past the authorization
guard: fetch the file handle (may raise before any file exists), create the
temporary `.ogg` and download into it (a raising download leaves the `.ogg`
behind, before the inner `try`/`finally` is entered), then transcribe;
the `finally` clause unlinks the `.ogg`. -/
def handleVoiceSession (fs : List String) (oggFile tmpWav txtFile : String)
    (getFile download load exportWav : Except String Unit) (w : WhisperOutcome) :
    List String :=
  match getFile with
  | .error _ => fs
  | .ok _ =>
    match download with
    | .error _ => oggFile :: fs
    | .ok _ =>
      let r := transcribeVoiceMessage (oggFile :: fs) tmpWav txtFile load exportWav w
      r.2.erase oggFile

/-! ### Helper lemmas -/

/-- Rebuilding a string from its character data is the identity. -/
theorem string_mk_data (s : String) : String.mk s.data = s := rfl

/-- `pyLower` distributes over append. -/
theorem pyLower_append (a b : String) : pyLower (a ++ b) = pyLower a ++ pyLower b := by
  apply String.ext
  simp [pyLower]

/-- The ledger returned by `transcribeAudioFile` is the input ledger: the
`.txt` written by the subprocess is removed again on the path that created
it. -/
theorem transcribeAudioFile_ledger (fs : List String) (txt : String)
    (w : WhisperOutcome) : (transcribeAudioFile fs txt w).2 = fs := by
  cases w with
  | timedOut => rfl
  | raised e => rfl
  | completed rc written content =>
    simp only [transcribeAudioFile]
    split_ifs <;> simp

/-- `pre(.+)` matched at the front of `pre ++ Y` captures exactly `Y` when
`Y` is nonempty and newline-free. -/
theorem matchCapAt_append (p Y : List Char) (hY : Y ≠ [])
    (hnl : ∀ ch ∈ Y, ch ≠ '\n') : matchCapAt p [] (p ++ Y) = some Y := by
  have hpre : p.isPrefixOf (p ++ Y) = true :=
    List.isPrefixOf_iff_prefix.mpr (List.prefix_append p Y)
  cases Y with
  | nil => exact absurd rfl hY
  | cons c t =>
    have htw : (c :: t).takeWhile (fun ch => ch != '\n') = c :: t := by
      rw [List.takeWhile_eq_self_iff]
      intro x hx
      simpa using hnl x hx
    simp only [matchCapAt, hpre, if_true, List.drop_left, htw, List.length_cons]
    simp [greedyFrom, List.take_succ_cons, List.take_length]

/-- `re.search` of `pre(.+)` on `pre ++ Y` succeeds at position 0 with
capture `Y`. -/
theorem searchCap_append (p Y : List Char) (hp : p ≠ []) (hY : Y ≠ [])
    (hnl : ∀ ch ∈ Y, ch ≠ '\n') : searchCap p [] (p ++ Y) = some Y := by
  have hm := matchCapAt_append p Y hY hnl
  cases p with
  | nil => exact absurd rfl hp
  | cons c t =>
    rw [List.cons_append] at hm
    simp [searchCap, hm]

/-- A list starting with `n` contains `n` as a substring. -/
theorem containsSub_of_prefixOf (n l : List Char) (h : n.isPrefixOf l = true) :
    containsSub n l = true := by
  cases l with
  | nil =>
    cases n with
    | nil => rfl
    | cons a as => simp [List.isPrefixOf] at h
  | cons c t => simp [containsSub, h]

/-! ### Claim theorems -/

/-- C1 counterexample: on input `"find all pdf files"` the extracted query is
`"all pdf files"`, not `"pdf files"`, and the zero-result reply is
`"No files found matching 'all pdf files'"` — the generic pattern
`find (.+)` is listed before `find all (.+) files` in `search_patterns`. -/
theorem C1_counterexample :
    handleFileSearch (fun _ => Except.ok []) (fun _ => "") "find all pdf files"
      = "No files found matching 'all pdf files'" ∧
    extractQuery "find all pdf files" ≠ some "pdf files" := by
  constructor
  · rfl
  · decide

/-- C1 (amended): for the utterance `"find all pdf files"`, the query
extracted by `_handle_file_search` is `"all pdf files"` (the generic
`find (.+)` alternative precedes `find all (.+) files`, making the specific
one unreachable), and whenever the file-search collaborator returns zero
results for that query the final reply is exactly
`"No files found matching 'all pdf files'"`. -/
theorem C1_amended (search : String → Except String (List String))
    (fmt : List String → String)
    (h : search "all pdf files" = Except.ok []) :
    extractQuery "find all pdf files" = some "all pdf files" ∧
    handleFileSearch search fmt "find all pdf files"
      = "No files found matching 'all pdf files'" := by
  refine ⟨rfl, ?_⟩
  have he : extractQuery "find all pdf files" = some "all pdf files" := rfl
  unfold handleFileSearch
  rw [he]
  simp [h]

/-- C1 witness: the amended statement at the zero-result collaborator. -/
theorem C1_witness :
    extractQuery "find all pdf files" = some "all pdf files" ∧
    handleFileSearch (fun _ => Except.ok []) (fun _ => "") "find all pdf files"
      = "No files found matching 'all pdf files'" :=
  C1_amended (fun _ => Except.ok []) (fun _ => "") rfl

/-- C2 counterexample: after pressing the chord (one capture thread in
flight), releasing one chord key and pressing it again starts a second
capture thread — the trace ends with two captures running concurrently and
no "busy" rejection exists anywhere in the transition function. -/
theorem C2_counterexample :
    (hotkeyRun hotkeyCombination hotkeyInit (overlapTrace.take 4)).running = 1 ∧
    (hotkeyRun hotkeyCombination hotkeyInit overlapTrace).running = 2 := by
  decide

/-- C2 (amended): the code has no busy guard — a chord re-completion while a
capture is in flight starts a second concurrent capture (see the
counterexample trace); the only guard is the `is_active` flag, which merely
prevents repeat-fire while it stays set: no key press starts a new capture
while `is_active` is true. -/
theorem C2_amended (s : HotkeyState) (k : String) (h : s.isActive = true) :
    (hotkeyStep hotkeyCombination s (.press k)).running = s.running ∧
    (hotkeyStep hotkeyCombination s (.press k)).isActive = true := by
  simp [hotkeyStep, h]

/-- C2 witness: the amended statement at a concrete armed state. -/
theorem C2_witness :
    (hotkeyStep hotkeyCombination ⟨["ctrl", "alt", "a"], true, 1⟩ (.press "x")).running = 1 ∧
    (hotkeyStep hotkeyCombination ⟨["ctrl", "alt", "a"], true, 1⟩ (.press "x")).isActive = true :=
  C2_amended ⟨["ctrl", "alt", "a"], true, 1⟩ "x" rfl

/-- C3: `set_mode "online"` succeeds and the mode reads back `"online"`; for
every candidate outside the enumerated set the prior mode is left unchanged
and the raised rejection (`ValueError`, modelled as `Except.error`) is
distinct from "feature not implemented". -/
theorem C3_mode_state (current m : String) (h : validModes.contains m = false) :
    (setMode "online" current).2 = "online" ∧
    (setMode "online" current).1 = Except.ok () ∧
    (setMode m current).2 = current ∧
    (setMode m current).1 = Except.error modeErrorMsg ∧
    modeErrorMsg ≠ "feature not implemented" := by
  have h' : m ∉ validModes := by simpa using h
  refine ⟨rfl, rfl, ?_, ?_, by decide⟩ <;> simp [setMode, h']

/-- C3 witness: the statement at `current = "gemini"`, candidate `"bogus"`. -/
theorem C3_witness :
    (setMode "online" "gemini").2 = "online" ∧
    (setMode "online" "gemini").1 = Except.ok () ∧
    (setMode "bogus" "gemini").2 = "gemini" ∧
    (setMode "bogus" "gemini").1 = Except.error modeErrorMsg ∧
    modeErrorMsg ≠ "feature not implemented" :=
  C3_mode_state "gemini" "bogus" (by decide)

/-- C4: with a configured (nonempty) allow-listed chat id and a differing
sender, both the text and the voice handler reply exactly with the fixed
unauthorized message, and the downstream pipeline (router and collaborators)
is never invoked — the reply is independent of it; with no configured chat
id, every sender's message is processed. -/
theorem C4_authorization (cid uid msg msg2 : String) (f g h2 : String → String)
    (pf pg p2 : Unit → String) (hc : cid ≠ "") (hu : uid ≠ cid) :
    handleText (some cid) uid f msg = unauthorizedReply ∧
    handleText (some cid) uid f msg = handleText (some cid) uid g msg ∧
    handleVoice (some cid) uid pf = unauthorizedReply ∧
    handleVoice (some cid) uid pf = handleVoice (some cid) uid pg ∧
    handleText none uid h2 msg2 = h2 msg2 ∧
    handleVoice none uid p2 = p2 () := by
  simp [handleText, handleVoice, hc, hu]

/-- C4 witness: the statement at concrete chat id, sender and pipelines. -/
theorem C4_witness :
    handleText (some "123") "456" (fun m => "R" ++ m) "hi" = unauthorizedReply :=
  (C4_authorization "123" "456" "hi" "yo" (fun m => "R" ++ m) (fun _ => "g")
    (fun m => m) (fun _ => "pf") (fun _ => "pg") (fun _ => "p2")
    (by decide) (by decide)).1

/-- C5: when no category rule matches (no file-search, email or system
keyword occurs in the lowercased text), classification yields the Chat
intent and `process_text_message` returns exactly the conversational model's
response to the text with the fixed system preamble — never an absent result
(exceptions are converted to reply strings; the embedding models raising
collaborators as `Except` values already converted inside the handlers). -/
theorem C5_router_total (m : String) (c : Collaborators) (mode : String)
    (h1 : hasAnyKeyword (pyLower m) fileKeywords = false)
    (h2 : hasAnyKeyword (pyLower m) emailKeywords = false)
    (h3 : hasAnyKeyword (pyLower m) systemKeywords = false) :
    classify m = Category.chat ∧
    (processTextMessage c mode m).1 = c.llmResponse m chatPreamble ∧
    (processTextMessage c mode m).2 = mode := by
  refine ⟨?_, ?_, ?_⟩ <;>
    simp [classify, processTextMessage, parseAndExecute, h1, h2, h3]

/-- C5 witness: the statement at the keyword-free utterance
`"hello there"`. -/
theorem C5_witness :
    classify "hello there" = Category.chat ∧
    (processTextMessage sampleCollaborators "gemini" "hello there").1
      = sampleCollaborators.llmResponse "hello there" chatPreamble ∧
    (processTextMessage sampleCollaborators "gemini" "hello there").2 = "gemini" :=
  C5_router_total "hello there" sampleCollaborators "gemini"
    (by decide) (by decide) (by decide)

/-- C6: the rules are tried in the fixed order file-search keywords, email
keywords, system keywords, Chat fallback, first match winning; in particular
`"email status"` resolves to the email category because the email rule
precedes the mode/status/help rule. -/
theorem C6_rule_order (m : String) :
    (hasAnyKeyword (pyLower m) fileKeywords = true →
      classify m = Category.fileSearch) ∧
    (hasAnyKeyword (pyLower m) fileKeywords = false →
      hasAnyKeyword (pyLower m) emailKeywords = true →
      classify m = Category.email) ∧
    (hasAnyKeyword (pyLower m) fileKeywords = false →
      hasAnyKeyword (pyLower m) emailKeywords = false →
      hasAnyKeyword (pyLower m) systemKeywords = true →
      classify m = Category.system) ∧
    (hasAnyKeyword (pyLower m) fileKeywords = false →
      hasAnyKeyword (pyLower m) emailKeywords = false →
      hasAnyKeyword (pyLower m) systemKeywords = false →
      classify m = Category.chat) ∧
    classify "email status" = Category.email := by
  refine ⟨fun k1 => by simp [classify, k1],
    fun k1 k2 => by simp [classify, k1, k2],
    fun k1 k2 k3 => by simp [classify, k1, k2, k3],
    fun k1 k2 k3 => by simp [classify, k1, k2, k3],
    by decide⟩

/-- C6 witness: the tie-break input `"email status"` discharged through the
second rule. -/
theorem C6_witness : classify "email status" = Category.email :=
  (C6_rule_order "email status").2.1 (by decide) (by decide)

/-- C7 counterexample: for the utterance `"search for notes "` (so `X` is
`"notes "`), the extracted query is `"notes "` with its trailing space —
surrounding whitespace is not trimmed. -/
theorem C7_counterexample :
    extractQuery "search for notes " = some "notes " ∧
    ¬ ("notes " = "notes") := by
  constructor
  · rfl
  · decide

/-- C7 (amended): for every utterance of the shape `"search for " ++ X` with
a nonempty, newline-free remainder, classification routes to file search and
the extracted query is the lowercased remainder verbatim — no whitespace
trimming. -/
theorem C7_amended (X : String) (h1 : (pyLower X).data ≠ [])
    (h2 : ∀ ch ∈ (pyLower X).data, ch ≠ '\n') :
    classify ("search for " ++ X) = Category.fileSearch ∧
    extractQuery ("search for " ++ X) = some (pyLower X) := by
  have hml : pyLower ("search for " ++ X) = "search for " ++ pyLower X := by
    rw [pyLower_append, show pyLower "search for " = "search for " by decide]
  have hdata : (pyLower ("search for " ++ X)).data
      = "search for ".data ++ (pyLower X).data := by
    rw [hml, String.data_append]
  have hsc : searchCap "search for ".data []
      (pyLower ("search for " ++ X)).data = some (pyLower X).data := by
    rw [hdata]
    exact searchCap_append _ _ (by decide) h1 h2
  constructor
  · have hpin : pyIn "search" (pyLower ("search for " ++ X)) = true := by
      unfold pyIn
      apply containsSub_of_prefixOf
      rw [hdata]
      exact List.isPrefixOf_iff_prefix.mpr
        ((List.isPrefixOf_iff_prefix.mp
            (by decide : "search".data.isPrefixOf "search for ".data = true)).trans
          (List.prefix_append _ _))
    have hkw : hasAnyKeyword (pyLower ("search for " ++ X)) fileKeywords = true := by
      simp [hasAnyKeyword, fileKeywords, hpin]
    simp [classify, hkw]
  · have hpost : ("" : String).data = [] := rfl
    simp only [extractQuery, searchPatterns, firstMatch, hpost, hsc, string_mk_data]

/-- C7 witness: the amended statement at `X = "notes "`. -/
theorem C7_witness :
    classify ("search for " ++ "notes ") = Category.fileSearch ∧
    extractQuery ("search for " ++ "notes ") = some (pyLower "notes ") :=
  C7_amended "notes " (by decide) (by decide)

/-- C8 counterexample: a second `stop()` on the chat frontend is not a no-op:
`TelegramBot.stop` never clears `self.application`, so the second call
invokes `application.stop()` again — a duplicate resource release. -/
theorem C8_counterexample :
    telegramStop (telegramStop ⟨some 0, 0⟩) ≠ telegramStop ⟨some 0, 0⟩ ∧
    (telegramStop (telegramStop ⟨some 0, 0⟩)).stops = 2 := by
  decide

/-- C8 (amended): `stop()` twice on the key listener is safe — the handle is
cleared, so the second call is a no-op, and calling from the never-started
state does nothing; on the chat frontend `stop()` from the never-initialized
state is a no-op, but a second `stop()` on a started bot re-invokes the
transport's stop (duplicate release). -/
theorem C8_amended (m : ListenerMgr) (n k : Nat) :
    hotkeyStop (hotkeyStop m) = hotkeyStop m ∧
    hotkeyStop ⟨none, n⟩ = ⟨none, n⟩ ∧
    telegramStop ⟨none, n⟩ = ⟨none, n⟩ ∧
    (telegramStop (telegramStop ⟨some 0, k⟩)).stops = k + 2 := by
  refine ⟨?_, rfl, rfl, rfl⟩
  cases m with
  | mk l r =>
    cases l with
    | none => rfl
    | some x => rfl

/-- C9 counterexample: when the save-audio collaborator raises after the
temporary WAV was created, `record_and_transcribe` returns the converted
error string with the temporary audio file still present — cleanup is not in
a `finally`. -/
theorem C9_counterexample :
    (recordAndTranscribe [] "rec.wav" "rec.txt" (Except.ok ())
        (Except.error "disk full") WhisperOutcome.timedOut)
      = ("Error recording and transcribing: disk full", ["rec.wav"]) := by
  decide

/-- C9 (amended): temporary audio files are deleted on normal completion and
on transcription timeout (which yields the specific "timed out" reply), and
the chat voice handler's downloaded file is deleted by its `finally` on
every path past the download; but a collaborator exception between temp-file
creation and the cleanup line (saving audio, audio export) returns the error
string with the temp file left behind (see the counterexample). -/
theorem C9_amended (fs : List String) (tmpWav txtFile ogg : String)
    (ld ex : Except String Unit) (w : WhisperOutcome)
    (hogg : ogg ∉ fs) (hwav : tmpWav ≠ ogg) :
    (recordAndTranscribe fs tmpWav txtFile (Except.ok ()) (Except.ok ()) w).2 = fs ∧
    (recordAndTranscribe fs tmpWav txtFile (Except.ok ()) (Except.ok ())
        WhisperOutcome.timedOut).1 = timeoutReply ∧
    (transcribeVoiceMessage fs tmpWav txtFile (Except.ok ()) (Except.ok ()) w).2 = fs ∧
    ogg ∉ handleVoiceSession fs ogg tmpWav txtFile (Except.ok ()) (Except.ok ()) ld ex w := by
  refine ⟨?_, rfl, ?_, ?_⟩
  · simp [recordAndTranscribe, transcribeAudioFile_ledger]
  · simp [transcribeVoiceMessage, transcribeAudioFile_ledger]
  · cases ld with
    | error e => simp [handleVoiceSession, transcribeVoiceMessage, hogg]
    | ok u =>
      cases ex with
      | error e =>
        simp [handleVoiceSession, transcribeVoiceMessage,
          List.erase_cons_tail, hwav, Ne.symm hwav, hogg]
      | ok v =>
        simp [handleVoiceSession, transcribeVoiceMessage,
          transcribeAudioFile_ledger, hogg]

/-- C9 witness: the amended statement at a concrete session. -/
theorem C9_witness :
    (recordAndTranscribe [] "a.wav" "a.txt" (Except.ok ()) (Except.ok ())
        WhisperOutcome.timedOut).2 = [] ∧
    (recordAndTranscribe [] "a.wav" "a.txt" (Except.ok ()) (Except.ok ())
        WhisperOutcome.timedOut).1 = timeoutReply ∧
    (transcribeVoiceMessage [] "a.wav" "a.txt" (Except.ok ()) (Except.ok ())
        WhisperOutcome.timedOut).2 = [] ∧
    "v.ogg" ∉ handleVoiceSession [] "v.ogg" "a.wav" "a.txt" (Except.ok ())
        (Except.ok ()) (Except.ok ()) (Except.ok ()) WhisperOutcome.timedOut :=
  C9_amended [] "a.wav" "a.txt" "v.ogg" (Except.ok ()) (Except.ok ())
    WhisperOutcome.timedOut (by simp) (by decide)

/-- C10: the configured default mode is `"gemini"`, which the mode-switch
validation rejects (it is outside `{"online", "offline", "huggingface"}`),
and for every mode other than `"online"` and `"huggingface"` — including the
default — response generation dispatches to the Ollama back end. -/
theorem C10_default_mode (m current : String) (h1 : m ≠ "online")
    (h2 : m ≠ "huggingface") :
    DEFAULT_MODE = "gemini" ∧
    validModes.contains DEFAULT_MODE = false ∧
    (setMode DEFAULT_MODE current).1 = Except.error modeErrorMsg ∧
    (setMode DEFAULT_MODE current).2 = current ∧
    getResponseBackend m = Backend.ollama := by
  refine ⟨rfl, by decide, rfl, rfl, ?_⟩
  simp [getResponseBackend, h1, h2]

/-- C10 witness: the statement at the default mode itself. -/
theorem C10_witness :
    DEFAULT_MODE = "gemini" ∧
    validModes.contains DEFAULT_MODE = false ∧
    (setMode DEFAULT_MODE "offline").1 = Except.error modeErrorMsg ∧
    (setMode DEFAULT_MODE "offline").2 = "offline" ∧
    getResponseBackend "gemini" = Backend.ollama :=
  C10_default_mode "gemini" "offline" (by decide) (by decide)

end AiAgent
